import Mathlib

/-
Shallow embedding of the document-generation and quota-enforcement core of the
Micro_SaaS_Tool_HealBharat backend (src/backend/models.py, tools.py, utils.py,
app.py).  Python datetimes become records of calendar fields compared
lexicographically, the SQLAlchemy store becomes explicit lists of rows, each
Flask POST handler becomes a pure state-transformer, and Python floats become
rationals (all the arithmetic the spec mentions is exact).  Dynamically typed
arguments that matter (the shadowed `generate_qr_code`) are modelled with a
`PyVal` sum so attribute errors on wrong types are visible.
-/

namespace Backend

/-- Embedding of a (naive, UTC) Python `datetime.datetime`: a record of calendar
fields.  Python compares datetimes field by field, i.e. lexicographically. -/
structure PyDateTime where
  year : Nat
  month : Nat
  day : Nat
  hour : Nat
  minute : Nat
  second : Nat
  microsecond : Nat
deriving DecidableEq

/-- The comparison key of a datetime, most significant field first. -/
def PyDateTime.key (t : PyDateTime) : List Nat :=
  [t.year, t.month, t.day, t.hour, t.minute, t.second, t.microsecond]

/-- Lexicographic strict order on lists of naturals. -/
def lexLt : List Nat → List Nat → Bool
  | [], [] => false
  | [], _ :: _ => true
  | _ :: _, [] => false
  | a :: as, b :: bs => if a < b then true else if b < a then false else lexLt as bs

/-- Python `a < b` on datetimes. -/
def PyDateTime.lt (a b : PyDateTime) : Bool := lexLt a.key b.key

/-- Python `a <= b` on datetimes (total order, so `a <= b` iff not `b < a`). -/
def PyDateTime.le (a b : PyDateTime) : Bool := !(PyDateTime.lt b a)

/-- `now.replace(day=1, hour=0, minute=0, second=0, microsecond=0)` from
`User.can_create_document` (models.py line 40): the first instant of the
current calendar month. -/
def current_month_start (now : PyDateTime) : PyDateTime :=
  { now with day := 1, hour := 0, minute := 0, second := 0, microsecond := 0 }

/-- One line item of an invoice, as parsed from the `items` JSON
(tools.py line 66); `quantity` and `rate` are coerced with `float(...)` in
utils.py line 72, modelled as rationals. -/
structure InvoiceItem where
  description : String
  quantity : ℚ
  rate : ℚ
deriving DecidableEq

/-- The `invoice_data` dict built in `invoice_generator` (tools.py lines 55-71). -/
structure InvoiceData where
  company_name : String
  company_address : String
  company_email : String
  company_phone : String
  client_name : String
  client_address : String
  client_email : String
  invoice_number : String
  invoice_date : String
  due_date : String
  items : List InvoiceItem
  tax_rate : ℚ
  discount : ℚ
  notes : String
  template_id : Option String
deriving DecidableEq

/-- The request form fields read by `qrcode_generator` (tools.py lines 125-147).
Fields read with an explicit default (`data.get(k, d)`) are `Option`s so the
defaulting is visible; the wifi/vcard/upi fields are read with plain
`data.get` and modelled as the strings present in the request. -/
structure QRRequestForm where
  type : Option String
  content : String
  size : Option Int
  format : Option String
  error_correction : Option String
  wifi_security : String
  wifi_ssid : String
  wifi_password : String
  vcard_name : String
  vcard_phone : String
  vcard_email : String
  vcard_org : String
  upi_id : String
  upi_name : String
  upi_amount : String
deriving DecidableEq

/-- The `qr_data` dict (tools.py lines 127-133). -/
structure QRData where
  type : String
  content : String
  size : Int
  format : String
  error_correction : String
deriving DecidableEq

/-- Builds `qr_data` from the request form, applying the `data.get` defaults
(tools.py lines 127-133). -/
def qr_data_of (data : QRRequestForm) : QRData :=
  { type := data.type.getD "text"
    content := data.content
    size := data.size.getD 300
    format := data.format.getD "png"
    error_correction := data.error_correction.getD "M" }

/-- The content-string derivation of `qrcode_generator` (tools.py lines
135-149): `wifi`, `vcard` and `upi` build fixed-field strings, every other
type passes `qr_data['content']` through verbatim. -/
def qr_content_of (data : QRRequestForm) : String :=
  let qr_data := qr_data_of data
  if qr_data.type = "wifi" then
    "WIFI:T:" ++ data.wifi_security ++ ";S:" ++ data.wifi_ssid ++ ";P:" ++
      data.wifi_password ++ ";;"
  else if qr_data.type = "vcard" then
    "BEGIN:VCARD\nVERSION:3.0\nFN:" ++ data.vcard_name ++ "\nTEL:" ++
      data.vcard_phone ++ "\nEMAIL:" ++ data.vcard_email ++ "\nORG:" ++
      data.vcard_org ++ "\nEND:VCARD"
  else if qr_data.type = "upi" then
    "upi://pay?pa=" ++ data.upi_id ++ "&pn=" ++ data.upi_name ++ "&am=" ++
      data.upi_amount
  else qr_data.content

/-- The `certificate_data` dict built in `certificate_creator`
(tools.py lines 302-311). -/
structure CertificateData where
  recipient_name : String
  course_name : String
  completion_date : String
  instructor_name : String
  organization : String
  description : String
  template_id : Option String
  bulk_names : List String
deriving DecidableEq

/-- Python `str.strip()` (leading/trailing whitespace removal), written over
the character list so it evaluates by kernel reduction; the guard
`if name.strip():` in tools.py line 319 tests the result for non-emptiness. -/
def pyStrip (s : String) : String :=
  String.mk (((s.data.dropWhile Char.isWhitespace).reverse.dropWhile
    Char.isWhitespace).reverse)

/-- Python `str.lower()` (ASCII case mapping), over the character list. -/
def pyLower (s : String) : String := String.mk (s.data.map Char.toLower)

/-- Python `s.replace(old, new)` for the single-character pattern the code
uses (`.replace(' ', '_')`): replace each occurrence of the character. -/
def pyReplace (s : String) (old new : Char) : String :=
  String.mk (s.data.map (fun c => if c = old then new else c))

/-- The `personal_info` sub-dict of a resume request (tools.py lines 213-220). -/
structure PersonalInfo where
  full_name : String
  email : String
  phone : String
  address : String
  linkedin : String
  portfolio : String
deriving DecidableEq

/-- The `resume_data` dict (tools.py lines 212-229); the section lists are
consumed only by the ReportLab renderer, so their entries stay opaque here. -/
structure ResumeData where
  personal_info : PersonalInfo
  summary : String
  education : List String
  experience : List String
  skills : List String
  projects : List String
  certifications : List String
  template_id : Option String
  format : String
deriving DecidableEq

/-- The structured value serialized into `Document.data_json` by
`json.dumps(...)` at each generation site; `raw` stands for any other text the
free-form `Text` column may hold. -/
inductive StoredPayload
  | invoice (d : InvoiceData)
  | qr (q : QRData)
  | certificate (c : CertificateData)
  | resume (r : ResumeData)
  | raw (s : String)
deriving DecidableEq

/-- The `User` row (models.py lines 8-22), restricted to the columns the
generation/quota core reads or writes. -/
structure User where
  id : Nat
  email : String
  subscription_plan : String
  subscription_expires : Option PyDateTime
  documents_created : Nat
deriving DecidableEq

/-- The `Document` ledger row (models.py lines 58-69). -/
structure Document where
  uuid : String
  user_id : Nat
  document_type : String
  title : String
  file_path : String
  file_type : String
  template_used : Option String
  data_json : StoredPayload
  created_at : PyDateTime
  downloaded_count : Nat
deriving DecidableEq

/-- `User.is_premium` (models.py lines 30-34): premium plan and a non-null
expiry strictly after `utcnow()`; a null (`None`) expiry is falsy. -/
def User.is_premium (u : User) (now : PyDateTime) : Bool :=
  if u.subscription_plan = "premium" then
    match u.subscription_expires with
    | some expires => PyDateTime.lt now expires
    | none => false
  else false

/-- The monthly-document count of `User.can_create_document` (models.py lines
41-44): rows owned by the user whose `created_at` is at or after the first
instant of the current calendar month. -/
def monthly_docs (documents : List Document) (user_id : Nat) (now : PyDateTime) : Nat :=
  (documents.filter (fun d =>
    d.user_id == user_id && PyDateTime.le (current_month_start now) d.created_at)).length

/-- `User.can_create_document` (models.py lines 36-45): premium users always
pass, free users pass while their monthly count is strictly below 5. -/
def User.can_create_document (u : User) (documents : List Document) (now : PyDateTime) : Bool :=
  if u.is_premium now then true
  else monthly_docs documents u.id now < 5

/-- Premium eligibility spelled exactly as the spec words it (spec §4.1):
plan is `premium` and the expiry timestamp is strictly after the clock.
Stated separately from `User.is_premium` so the claim can compare the two. -/
def premium_eligible_spec (u : User) (now : PyDateTime) : Prop :=
  u.subscription_plan = "premium" ∧
    ∃ e, u.subscription_expires = some e ∧ PyDateTime.lt now e = true

/-- A dynamically typed Python value, needed where the code passes arguments of
the wrong type (the shadowed `generate_qr_code` call in tools.py line 156). -/
inductive PyVal
  | str (s : String)
  | int (n : Int)
  | pyNone
deriving DecidableEq

/-- Python `v.lower()`: succeeds only on strings, otherwise raises
`AttributeError`. -/
def PyVal.lower : PyVal → Except String String
  | .str s => .ok (pyLower s)
  | _ => .error "AttributeError: object has no attribute lower"

/-- The error-correction constants of the `qrcode` library. -/
inductive ErrorCorrection
  | L
  | M
  | Q
  | H
deriving DecidableEq

/-- The `qrcode.QRCode(...)` object as configured by utils.py together with
the data added to it: this is what determines the encoding. -/
structure QRCode where
  version : Nat
  error_correction : ErrorCorrection
  box_size : Nat
  border : Nat
  data : String
deriving DecidableEq

/-- The image object returned by `qr.make_image` (optionally resized). -/
inductive QRImage
  | svg (qr : QRCode)
  | raster (qr : QRCode) (fill_color back_color : String) (resized_to : Option (Int × Int))
deriving DecidableEq

/-- The QRCode backing an image. -/
def QRImage.qr : QRImage → QRCode
  | .svg qr => qr
  | .raster qr _ _ _ => qr

/-- The FIRST `generate_qr_code` definition in utils.py (lines 262-282): it
renders and writes the image to `file_path` (the returned list is the file
paths written).  In Python the later definition of the same name below shadows
this one, so `tools.py`, which does `from utils import generate_qr_code`,
never receives it.  Note it also hardcodes `ERROR_CORRECT_M`. -/
def generate_qr_code_v1 (content : String) (file_path : String) (size : Int)
    (format : String) : QRImage × List String :=
  let qr : QRCode :=
    { version := 1, error_correction := .M, box_size := 10, border := 4, data := content }
  if pyLower format = "svg" then
    (.svg qr, [file_path])
  else
    (.raster qr "black" "white" (some (size, size)), [file_path])

/-- The body of the `try:` block of the SECOND `generate_qr_code` definition in
utils.py (lines 468-491).  Its parameters are `(data, size, format,
error_correction, foreground_color, background_color)`; `size` and `format`
are `PyVal`s because the call site in tools.py passes a file path and an `int`
there.  The `QRCode` is constructed with `ERROR_CORRECT_M` regardless of the
`error_correction` argument; `format.lower()` raises on non-strings, and the
raster branch resizes only if `size` is an integer (PIL raises otherwise).
No branch writes any file: the image object is returned to the caller. -/
def generate_qr_code_body (data : String) (size : PyVal) (format : PyVal)
    (error_correction : PyVal) (foreground_color background_color : String) :
    Except String QRImage := do
  let qr : QRCode :=
    { version := 1, error_correction := .M, box_size := 10, border := 4, data := data }
  let fmt ← format.lower
  if fmt = "svg" then
    return .svg qr
  else
    match size with
    | .int n => return .raster qr foreground_color background_color (some (n, n))
    | _ => .error "TypeError: size must be an integer"

/-- The module-level binding `utils.generate_qr_code`: since the second `def`
(utils.py line 468) shadows the first, this is the function imported by
tools.py.  The `try/except` swallows every exception raised in the body and
returns `None`; the second component is the list of file paths written —
always `[]`, because this definition never saves anything to disk. -/
def generate_qr_code (data : String) (size : PyVal) (format : PyVal)
    (error_correction : PyVal) (foreground_color background_color : String) :
    Option QRImage × List String :=
  match generate_qr_code_body data size format error_correction
      foreground_color background_color with
  | .ok img => (some img, [])
  | .error _ => (none, [])

/-- The JSON response outcome of a generation POST handler. -/
inductive GenResult
  | quotaExceeded
  | premiumRequired
  | serverError (msg : String)
  | success (document_uuids : List String)
deriving DecidableEq

/-- The observable effect of one generation POST handler: the user row, the
document table, the files written to the shared artifact store during the
request, and the JSON outcome. -/
structure FlowOut where
  user : User
  documents : List Document
  filesWritten : List String
  result : GenResult
deriving DecidableEq

/-- The POST branch of `invoice_generator` (tools.py lines 46-107).
`render_ok` is the outcome of the `generate_invoice_pdf` ReportLab call: if it
raises, `doc.build` has not run, so no file was written, and the handler's
`except` branch rolls the session back (no row, no counter change).
`new_uuid` stands for the fresh `uuid.uuid4().hex[:8]` suffix and `folder` for
`GENERATED_FILES_FOLDER`. -/
def invoice_generator (user : User) (documents : List Document) (now : PyDateTime)
    (invoice_data : InvoiceData) (render_ok : Bool) (new_uuid : String)
    (folder : String) : FlowOut :=
  if !(user.can_create_document documents now) then
    ⟨user, documents, [], .quotaExceeded⟩
  else
    let filename := "invoice_" ++ invoice_data.invoice_number ++ "_" ++ new_uuid ++ ".pdf"
    let file_path := folder ++ "/" ++ filename
    if !render_ok then
      ⟨user, documents, [], .serverError "Failed to generate invoice"⟩
    else
      let document : Document :=
        { uuid := new_uuid
          user_id := user.id
          document_type := "invoice"
          title := "Invoice #" ++ invoice_data.invoice_number
          file_path := file_path
          file_type := "pdf"
          template_used := invoice_data.template_id
          data_json := .invoice invoice_data
          created_at := now
          downloaded_count := 0 }
      ⟨{ user with documents_created := user.documents_created + 1 },
        document :: documents, [file_path], .success [new_uuid]⟩

/-- The POST branch of `qrcode_generator` (tools.py lines 119-184).  The call
`generate_qr_code(qr_content, file_path, qr_data['size'], qr_data['format'])`
binds, positionally against the shadowing definition's signature
`(data, size, format, error_correction, ...)`: `size := file_path` (a string),
`format := qr_data['size']` (an int) and `error_correction :=
qr_data['format']`.  That function swallows its internal error and returns
`None` without writing a file, so the handler always proceeds to commit the
`Document` row and the counter increment.  `qr_document` is the row the
handler builds (tools.py lines 159-166). -/
def qr_document (user : User) (now : PyDateTime) (data : QRRequestForm)
    (new_uuid : String) (folder : String) : Document :=
  let qr_data := qr_data_of data
  let qr_content := qr_content_of data
  let filename := "qrcode_" ++ new_uuid ++ "." ++ qr_data.format
  { uuid := new_uuid
    user_id := user.id
    document_type := "qrcode"
    title := "QR Code - " ++ qr_data.type.capitalize
    file_path := folder ++ "/" ++ filename
    file_type := qr_data.format
    template_used := none
    data_json := .qr { qr_data with content := qr_content }
    created_at := now
    downloaded_count := 0 }

/-- The handler itself: quota check, content derivation, the (shadowed)
renderer call, then the unconditional row insert and counter increment.  See
the doc comment above `qr_document`. -/
def qrcode_generator (user : User) (documents : List Document) (now : PyDateTime)
    (data : QRRequestForm) (new_uuid : String) (folder : String) : FlowOut :=
  if !(user.can_create_document documents now) then
    ⟨user, documents, [], .quotaExceeded⟩
  else
    let qr_data := qr_data_of data
    let qr_content := qr_content_of data
    let filename := "qrcode_" ++ new_uuid ++ "." ++ qr_data.format
    let file_path := folder ++ "/" ++ filename
    let rendered :=
      generate_qr_code qr_content (.str file_path) (.int qr_data.size)
        (.str qr_data.format) "#000000" "#ffffff"
    ⟨{ user with documents_created := user.documents_created + 1 },
      qr_document user now data new_uuid folder :: documents,
      rendered.2, .success [new_uuid]⟩

/-- The POST branch of `resume_builder` (tools.py lines 204-266), with the
same reading of `render_ok`, `new_uuid` and `folder` as for invoices. -/
def resume_builder (user : User) (documents : List Document) (now : PyDateTime)
    (resume_data : ResumeData) (render_ok : Bool) (new_uuid : String)
    (folder : String) : FlowOut :=
  if !(user.can_create_document documents now) then
    ⟨user, documents, [], .quotaExceeded⟩
  else
    let format_ext := resume_data.format
    let filename := "resume_" ++ pyReplace resume_data.personal_info.full_name ' ' '_' ++
      "_" ++ new_uuid ++ "." ++ format_ext
    let file_path := folder ++ "/" ++ filename
    if !render_ok then
      ⟨user, documents, [], .serverError "Failed to generate resume"⟩
    else
      let document : Document :=
        { uuid := new_uuid
          user_id := user.id
          document_type := "resume"
          title := "Resume - " ++ resume_data.personal_info.full_name
          file_path := file_path
          file_type := format_ext
          template_used := resume_data.template_id
          data_json := .resume resume_data
          created_at := now
          downloaded_count := 0 }
      ⟨{ user with documents_created := user.documents_created + 1 },
        document :: documents, [file_path], .success [new_uuid]⟩

/-- One document of the bulk-certificate loop (tools.py lines 318-343), for
the `i`-th non-blank `name`: the payload copy gets the stripped name, while
the filename and title use the raw one. -/
def bulk_certificate_document (user : User) (now : PyDateTime)
    (certificate_data : CertificateData) (uuids : Nat → String) (folder : String)
    (i : Nat) (name : String) : Document :=
  let cert_data := { certificate_data with recipient_name := pyStrip name }
  let filename := "certificate_" ++ pyReplace name ' ' '_' ++ "_" ++ uuids i ++ ".pdf"
  { uuid := uuids i
    user_id := user.id
    document_type := "certificate"
    title := "Certificate - " ++ name
    file_path := folder ++ "/" ++ filename
    file_type := "pdf"
    template_used := certificate_data.template_id
    data_json := .certificate cert_data
    created_at := now
    downloaded_count := 0 }

/-- The POST branch of `certificate_creator` (tools.py lines 286-383).  Order
of checks as in the source: quota first, then the premium gate for bulk mode;
`bulk_names` is parsed only when `is_bulk` (else `[]`); the bulk loop runs
only when `is_bulk` and the parsed list is non-empty (Python truthiness of
the list), otherwise the single-recipient branch runs.  `render_ok` is the
collective outcome of the `generate_certificate_pdf` calls: any raise sends
the handler to its `except` branch, which rolls back all staged rows, so no
row and no counter change persists.  The counter is incremented by
`len(generated_files)` after the loop. -/
def certificate_creator (user : User) (documents : List Document) (now : PyDateTime)
    (is_bulk : Bool) (recipient_name course_name completion_date instructor_name
      organization description : String) (template_id : Option String)
    (bulk_names_parsed : List String) (render_ok : Bool) (uuids : Nat → String)
    (folder : String) : FlowOut :=
  if !(user.can_create_document documents now) then
    ⟨user, documents, [], .quotaExceeded⟩
  else if is_bulk && !(user.is_premium now) then
    ⟨user, documents, [], .premiumRequired⟩
  else
    let certificate_data : CertificateData :=
      { recipient_name := recipient_name
        course_name := course_name
        completion_date := completion_date
        instructor_name := instructor_name
        organization := organization
        description := description
        template_id := template_id
        bulk_names := if is_bulk then bulk_names_parsed else [] }
    if !render_ok then
      ⟨user, documents, [], .serverError "Failed to generate certificate"⟩
    else if is_bulk && !certificate_data.bulk_names.isEmpty then
      let picked := certificate_data.bulk_names.filter (fun name => pyStrip name ≠ "")
      let new_documents := picked.enum.map (fun p =>
        bulk_certificate_document user now certificate_data uuids folder p.1 p.2)
      ⟨{ user with documents_created := user.documents_created + new_documents.length },
        new_documents ++ documents,
        new_documents.map (·.file_path),
        .success (new_documents.map (·.uuid))⟩
    else
      let filename := "certificate_" ++ pyReplace certificate_data.recipient_name ' ' '_' ++
        "_" ++ uuids 0 ++ ".pdf"
      let file_path := folder ++ "/" ++ filename
      let document : Document :=
        { uuid := uuids 0
          user_id := user.id
          document_type := "certificate"
          title := "Certificate - " ++ certificate_data.recipient_name
          file_path := file_path
          file_type := "pdf"
          template_used := certificate_data.template_id
          data_json := .certificate certificate_data
          created_at := now
          downloaded_count := 0 }
      ⟨{ user with documents_created := user.documents_created + 1 },
        document :: documents, [file_path], .success [uuids 0]⟩

/-- The ownership-scoped ledger lookup of `download_document` (app.py line
126): `Document.query.filter_by(uuid=document_uuid, user_id=user.id).first()`. -/
def download_document_lookup (documents : List Document) (document_uuid : String)
    (user_id : Nat) : Option Document :=
  documents.find? (fun d => d.uuid == document_uuid && d.user_id == user_id)

/-- Invoice totals computed by `generate_invoice_pdf` (utils.py lines 70-85). -/
structure InvoiceTotals where
  subtotal : ℚ
  discount_amount : ℚ
  after_discount : ℚ
  tax_amount : ℚ
  total : ℚ
deriving DecidableEq

/-- The arithmetic of `generate_invoice_pdf` (utils.py lines 70-85): the
subtotal accumulates `quantity * rate` over the items in a running sum, then
discount, post-discount, tax and total are derived. -/
def computeInvoiceTotals (invoice_data : InvoiceData) : InvoiceTotals :=
  let subtotal :=
    invoice_data.items.foldl (fun s item => s + item.quantity * item.rate) 0
  let discount_amount := subtotal * (invoice_data.discount / 100)
  let after_discount := subtotal - discount_amount
  let tax_amount := after_discount * (invoice_data.tax_rate / 100)
  let total := after_discount + tax_amount
  { subtotal := subtotal
    discount_amount := discount_amount
    after_discount := after_discount
    tax_amount := tax_amount
    total := total }

/-- Progress of one in-flight generation request in the interleaving model of
spec §5: it first runs the quota check against the shared store, then (in a
separate step, as in the code) inserts the row and increments the counter. -/
inductive Phase
  | start
  | checked (ok : Bool)
  | finished (ok : Bool)
deriving DecidableEq

/-- Shared store plus the phases of two concurrent requests from one user. -/
structure ConcState where
  user : User
  documents : List Document
  p1 : Phase
  p2 : Phase
deriving DecidableEq

/-- Advance one request by one atomic step against the shared store.  The
check step evaluates `can_create_document` on the current store; the act step
then inserts the request's document and increments the counter if (and only
if) its own earlier check passed — the check-then-act structure of every
generator in tools.py. -/
def advance (now : PyDateTime) (newDoc : Document) (user : User)
    (documents : List Document) : Phase → Phase × User × List Document
  | .start => (.checked (user.can_create_document documents now), user, documents)
  | .checked true =>
      (.finished true,
        { user with documents_created := user.documents_created + 1 },
        newDoc :: documents)
  | .checked false => (.finished false, user, documents)
  | .finished b => (.finished b, user, documents)

/-- Run a schedule: `true` steps request 1 (inserting `d1` when it commits),
`false` steps request 2 (inserting `d2`). -/
def runSchedule (now : PyDateTime) (d1 d2 : Document) :
    List Bool → ConcState → ConcState
  | [], s => s
  | true :: rest, s =>
      let (p, u, docs) := advance now d1 s.user s.documents s.p1
      runSchedule now d1 d2 rest { s with p1 := p, user := u, documents := docs }
  | false :: rest, s =>
      let (p, u, docs) := advance now d2 s.user s.documents s.p2
      runSchedule now d1 d2 rest { s with p2 := p, user := u, documents := docs }

/-- Rows of `documents` owned by the user with id `user_id`. -/
def ownedCount (documents : List Document) (user_id : Nat) : Nat :=
  (documents.filter (fun d => d.user_id == user_id)).length

/-- One committed generation operation of the core: the state of a user and
the document table before and after one execution of any of the four POST
handlers (with arbitrary clock, payload, render outcome and fresh names). -/
inductive GenStep : User × List Document → User × List Document → Prop
  | invoice (u : User) (docs : List Document) (now : PyDateTime) (inv : InvoiceData)
      (ok : Bool) (new_uuid folder : String) :
      GenStep (u, docs)
        ((invoice_generator u docs now inv ok new_uuid folder).user,
         (invoice_generator u docs now inv ok new_uuid folder).documents)
  | qrcode (u : User) (docs : List Document) (now : PyDateTime) (data : QRRequestForm)
      (new_uuid folder : String) :
      GenStep (u, docs)
        ((qrcode_generator u docs now data new_uuid folder).user,
         (qrcode_generator u docs now data new_uuid folder).documents)
  | resume (u : User) (docs : List Document) (now : PyDateTime) (rd : ResumeData)
      (ok : Bool) (new_uuid folder : String) :
      GenStep (u, docs)
        ((resume_builder u docs now rd ok new_uuid folder).user,
         (resume_builder u docs now rd ok new_uuid folder).documents)
  | certificate (u : User) (docs : List Document) (now : PyDateTime) (is_bulk : Bool)
      (rn cn cd_ in_ og de : String) (tid : Option String) (names : List String)
      (ok : Bool) (uuids : Nat → String) (folder : String) :
      GenStep (u, docs)
        ((certificate_creator u docs now is_bulk rn cn cd_ in_ og de tid names ok
            uuids folder).user,
         (certificate_creator u docs now is_bulk rn cn cd_ in_ og de tid names ok
            uuids folder).documents)

/-- A sample clock: 2026-10-12 09:30:00 UTC. -/
def t0 : PyDateTime := ⟨2026, 10, 12, 9, 30, 0, 0⟩

/-- A free-plan user who already owns 4 documents this month (`fourDocs`). -/
def freeUser : User :=
  { id := 1
    email := "free@example.test"
    subscription_plan := "free"
    subscription_expires := none
    documents_created := 4 }

/-- A premium user whose subscription expires after `t0`. -/
def premiumUser : User :=
  { id := 2
    email := "prem@example.test"
    subscription_plan := "premium"
    subscription_expires := some ⟨2027, 1, 1, 0, 0, 0, 0⟩
    documents_created := 0 }

/-- A ledger row owned by `freeUser`, created on 2026-10-05 (inside the
current month of `t0`). -/
def sampleDoc (n : Nat) : Document :=
  { uuid := "doc-" ++ toString n
    user_id := 1
    document_type := "qrcode"
    title := "QR Code - Text"
    file_path := "generated_files/qrcode_old.png"
    file_type := "png"
    template_used := none
    data_json := .raw "{}"
    created_at := ⟨2026, 10, 5, 0, 0, 0, 0⟩
    downloaded_count := 0 }

/-- Four rows owned by `freeUser`, all created this month. -/
def fourDocs : List Document := [sampleDoc 1, sampleDoc 2, sampleDoc 3, sampleDoc 4]

/-- A row owned by user 1 with a known public identifier, for the
ownership-scoped lookup. -/
def docA : Document :=
  { sampleDoc 9 with uuid := "doc-uuid", user_id := 1 }

/-- The invoice of spec §8: items 2×100 and 1×50, discount 10%, tax 5%. -/
def exampleInvoice : InvoiceData :=
  { company_name := "Acme"
    company_address := "1 Road"
    company_email := "billing@acme.test"
    company_phone := "123"
    client_name := "Client"
    client_address := "2 Road"
    client_email := "client@client.test"
    invoice_number := "INV-1"
    invoice_date := "2026-10-12"
    due_date := "2026-10-26"
    items := [⟨"Widget", 2, 100⟩, ⟨"Gadget", 1, 50⟩]
    tax_rate := 5
    discount := 10
    notes := ""
    template_id := none }

/-- The wifi QR request of spec §8: security WPA, ssid Home, password secret. -/
def wifiExampleForm : QRRequestForm :=
  { type := some "wifi"
    content := ""
    size := none
    format := none
    error_correction := none
    wifi_security := "WPA"
    wifi_ssid := "Home"
    wifi_password := "secret"
    vcard_name := ""
    vcard_phone := ""
    vcard_email := ""
    vcard_org := ""
    upi_id := ""
    upi_name := ""
    upi_amount := "" }

/-- A plain text QR request with every defaulted field absent. -/
def textForm : QRRequestForm :=
  { wifiExampleForm with
    type := none
    content := "hello world"
    wifi_security := ""
    wifi_ssid := ""
    wifi_password := "" }

/-- A text QR request explicitly asking for error-correction level H. -/
def qrFormH : QRRequestForm :=
  { textForm with error_correction := some "H" }

/-- A supply of distinct fresh name suffixes. -/
def sampleUuids : Nat → String := fun i => "u" ++ toString i

/-- The row inserted by the first concurrent request. -/
def concDoc1 : Document :=
  { sampleDoc 5 with uuid := "conc-1", created_at := t0 }

/-- The row inserted by the second concurrent request. -/
def concDoc2 : Document :=
  { sampleDoc 6 with uuid := "conc-2", created_at := t0 }

/-- The code's premium test agrees with the spec's wording of eligibility. -/
theorem is_premium_iff (u : User) (now : PyDateTime) :
    u.is_premium now = true ↔ premium_eligible_spec u now := by
  cases he : u.subscription_expires with
  | none =>
      by_cases h : u.subscription_plan = "premium" <;>
        simp [User.is_premium, premium_eligible_spec, he, h]
  | some e =>
      by_cases h : u.subscription_plan = "premium" <;>
        simp [User.is_premium, premium_eligible_spec, he, h]

/-- C3: `can_create_document` returns true iff the user is premium-eligible
(premium plan with expiry strictly after the clock) or owns strictly fewer
than 5 documents created at or after the first instant of the current
calendar month; a non-premium user with exactly 4 such documents passes and
with 5 fails; and a document created strictly before the month start is never
counted, whoever owns it. -/
theorem claim_C3_can_create_document :
    (∀ (u : User) (docs : List Document) (now : PyDateTime),
        u.can_create_document docs now = true ↔
          (premium_eligible_spec u now ∨ monthly_docs docs u.id now < 5))
    ∧ (∀ (u : User) (docs : List Document) (now : PyDateTime),
        u.is_premium now = false → monthly_docs docs u.id now = 4 →
          u.can_create_document docs now = true)
    ∧ (∀ (u : User) (docs : List Document) (now : PyDateTime),
        u.is_premium now = false → monthly_docs docs u.id now = 5 →
          u.can_create_document docs now = false)
    ∧ (∀ (d : Document) (docs : List Document) (user_id : Nat) (now : PyDateTime),
        PyDateTime.lt d.created_at (current_month_start now) = true →
          monthly_docs (d :: docs) user_id now = monthly_docs docs user_id now) := by
  refine ⟨?_, ?_, ?_, ?_⟩
  · intro u docs now
    cases hp : u.is_premium now with
    | true => simp [User.can_create_document, hp, (is_premium_iff u now).mp hp]
    | false =>
        have hne : ¬ premium_eligible_spec u now := fun hc => by
          have ht := (is_premium_iff u now).mpr hc
          rw [hp] at ht
          exact Bool.false_ne_true ht
        simp [User.can_create_document, hp, hne]
  · intro u docs now hp hm
    simp [User.can_create_document, hp, hm]
  · intro u docs now hp hm
    simp [User.can_create_document, hp, hm]
  · intro d docs user_id now h
    simp [monthly_docs, List.filter_cons, PyDateTime.le, h]

/-- Witness for C3: the free user with exactly 4 documents this month passes. -/
theorem claim_C3_witness :
    freeUser.can_create_document fourDocs t0 = true :=
  claim_C3_can_create_document.2.1 freeUser fourDocs t0 (by decide) (by decide)

/-- Folding the running subtotal equals the sum of the per-item amounts. -/
theorem foldl_items_eq_sum (l : List InvoiceItem) (a : ℚ) :
    l.foldl (fun s item => s + item.quantity * item.rate) a
      = a + (l.map (fun item => item.quantity * item.rate)).sum := by
  induction l generalizing a with
  | nil => simp
  | cons x xs ih => simp [ih, add_assoc]

/-- C4: the composed invoice satisfies amount = quantity × rate per item,
subtotal = sum of amounts, discount = subtotal × rate/100, post-discount =
subtotal − discount, tax = post-discount × rate/100, total = post-discount +
tax; the spec §8 example yields 250 / 25 / 225 / 11.25 / 236.25; and a
successful generation stores the originating payload in the ledger row, from
which the same figures are re-derived. -/
theorem claim_C4_invoice_arithmetic :
    (∀ inv : InvoiceData,
        (computeInvoiceTotals inv).subtotal
            = (inv.items.map (fun item => item.quantity * item.rate)).sum
        ∧ (computeInvoiceTotals inv).discount_amount
            = (computeInvoiceTotals inv).subtotal * (inv.discount / 100)
        ∧ (computeInvoiceTotals inv).after_discount
            = (computeInvoiceTotals inv).subtotal - (computeInvoiceTotals inv).discount_amount
        ∧ (computeInvoiceTotals inv).tax_amount
            = (computeInvoiceTotals inv).after_discount * (inv.tax_rate / 100)
        ∧ (computeInvoiceTotals inv).total
            = (computeInvoiceTotals inv).after_discount + (computeInvoiceTotals inv).tax_amount)
    ∧ computeInvoiceTotals exampleInvoice
        = { subtotal := 250, discount_amount := 25, after_discount := 225,
            tax_amount := 11.25, total := 236.25 }
    ∧ (∀ u docs now inv new_uuid folder, u.can_create_document docs now = true →
        ∃ d, (invoice_generator u docs now inv true new_uuid folder).documents = d :: docs
          ∧ d.data_json = .invoice inv
          ∧ ∀ inv2, d.data_json = .invoice inv2 →
              computeInvoiceTotals inv2 = computeInvoiceTotals inv) := by
  refine ⟨?_, ?_, ?_⟩
  · intro inv
    refine ⟨?_, rfl, rfl, rfl, rfl⟩
    simpa using foldl_items_eq_sum inv.items 0
  · simp only [computeInvoiceTotals, exampleInvoice, List.foldl]
    norm_num [InvoiceTotals.mk.injEq]
  · intro u docs now inv new_uuid folder h
    refine ⟨{ uuid := new_uuid
              user_id := u.id
              document_type := "invoice"
              title := "Invoice #" ++ inv.invoice_number
              file_path := folder ++ "/" ++
                ("invoice_" ++ inv.invoice_number ++ "_" ++ new_uuid ++ ".pdf")
              file_type := "pdf"
              template_used := inv.template_id
              data_json := .invoice inv
              created_at := now
              downloaded_count := 0 }, ?_, rfl, ?_⟩
    · simp [invoice_generator, h]
    · intro inv2 h2
      cases h2
      rfl

/-- Witness for C4: a concrete successful generation stores the example
payload and re-derivation is stable. -/
theorem claim_C4_witness :
    ∃ d, (invoice_generator freeUser [] t0 exampleInvoice true "u1" "generated_files").documents
        = d :: ([] : List Document)
      ∧ d.data_json = .invoice exampleInvoice
      ∧ ∀ inv2, d.data_json = .invoice inv2 →
          computeInvoiceTotals inv2 = computeInvoiceTotals exampleInvoice :=
  claim_C4_invoice_arithmetic.2.2 freeUser [] t0 exampleInvoice "u1" "generated_files" (by decide)

/-- C8: the encoded/stored QR content string is derived from the typed
payload: resolved type `wifi` gives exactly
`WIFI:T:<security>;S:<ssid>;P:<password>;;` (in particular WPA/Home/secret
gives `WIFI:T:WPA;S:Home;P:secret;;`), and any type other than the three
fixed-schema ones — in particular `text`, the default — passes the content
field through verbatim. -/
theorem claim_C8_qr_content_derivation :
    (∀ data : QRRequestForm, (qr_data_of data).type = "wifi" →
        qr_content_of data = "WIFI:T:" ++ data.wifi_security ++ ";S:" ++
          data.wifi_ssid ++ ";P:" ++ data.wifi_password ++ ";;")
    ∧ qr_content_of wifiExampleForm = "WIFI:T:WPA;S:Home;P:secret;;"
    ∧ (∀ data : QRRequestForm, (qr_data_of data).type ≠ "wifi" →
        (qr_data_of data).type ≠ "vcard" → (qr_data_of data).type ≠ "upi" →
        qr_content_of data = data.content) := by
  refine ⟨?_, by decide, ?_⟩
  · intro data h
    simp only [qr_data_of] at h
    simp [qr_content_of, qr_data_of, h]
  · intro data h1 h2 h3
    simp only [qr_data_of] at h1 h2 h3
    simp [qr_content_of, qr_data_of, h1, h2, h3]

/-- Witness for C8: the explicit text request's content passes through
verbatim. -/
theorem claim_C8_witness :
    qr_content_of textForm = textForm.content :=
  claim_C8_qr_content_derivation.2.2 textForm (by decide) (by decide) (by decide)

/-- C9 fails on the code: a request asking for level H resolves to requested
level "H" (and an absent field does default to "M"), but any image either
`generate_qr_code` definition builds is encoded with `ERROR_CORRECT_M`: the
shadowing definition hardcodes it (ignoring its `error_correction` argument)
and so does the shadowed one; moreover the call shape the flow actually makes
(an int in the `format` slot) returns `None` outright. -/
theorem claim_C9_error_correction_ignored :
    (qr_data_of qrFormH).error_correction = "H"
    ∧ (qr_data_of textForm).error_correction = "M"
    ∧ (generate_qr_code "hello world" (.str "generated_files/q.svg") (.str "svg")
          (.str "H") "#000000" "#ffffff").1
        = some (.svg { version := 1
                       error_correction := .M
                       box_size := 10
                       border := 4
                       data := "hello world" })
    ∧ generate_qr_code "hello world" (.str "generated_files/q.png") (.int 300)
          (.str "png") "#000000" "#ffffff" = (none, [])
    ∧ (generate_qr_code_v1 "hello world" "generated_files/q.png" 300 "png").1.qr.error_correction
        = .M := by
  refine ⟨by decide, by decide, by decide, by decide, by decide⟩

/-- C2 fails on the code (QR flow): a quota-eligible free user's QR request
commits a Document row and a counter increment although not a single file was
written during the request — the shadowed renderer silently failed. -/
theorem claim_C2_qr_partial_ledger :
    (qrcode_generator freeUser [] t0 textForm "u1" "generated_files").result
        = .success ["u1"]
    ∧ (qrcode_generator freeUser [] t0 textForm "u1" "generated_files").filesWritten = []
    ∧ (qrcode_generator freeUser [] t0 textForm "u1" "generated_files").documents.length = 1
    ∧ (qrcode_generator freeUser [] t0 textForm "u1" "generated_files").user.documents_created
        = freeUser.documents_created + 1 := by
  refine ⟨rfl, rfl, rfl, rfl⟩

/-- With the quota check passing, the QR handler reduces to its commit: row
inserted, counter incremented, nothing written to disk. -/
theorem qrcode_generator_commits (u : User) (docs : List Document) (now : PyDateTime)
    (form : QRRequestForm) (new_uuid folder : String)
    (h : u.can_create_document docs now = true) :
    qrcode_generator u docs now form new_uuid folder =
      ⟨{ u with documents_created := u.documents_created + 1 },
        qr_document u now form new_uuid folder :: docs, [], .success [new_uuid]⟩ := by
  unfold qrcode_generator
  rw [h]
  rfl

/-- C10: the `generate_qr_code` that tools.py invokes is the second
(shadowing) definition of utils.py; the flow's call puts the file path in its
`size` parameter and an int in its `format` parameter; the function never
writes a file (its writes list is `[]` for every argument) and swallows every
internal exception (with an int in the `format` slot it returns `None`);
consequently every QR request that passes the quota check commits a Document
row whose `file_path` was never written and increments `documents_created`. -/
theorem claim_C10_shadowed_qr_flow :
    (∀ data size format ec fg bg,
        (generate_qr_code data size format ec fg bg).2 = [])
    ∧ (∀ data size (n : Int) ec fg bg,
        generate_qr_code data size (.int n) ec fg bg = (none, []))
    ∧ (∀ (u : User) (docs : List Document) (now : PyDateTime) (form : QRRequestForm)
        (new_uuid folder : String), u.can_create_document docs now = true →
        (qrcode_generator u docs now form new_uuid folder).result = .success [new_uuid]
          ∧ (qrcode_generator u docs now form new_uuid folder).filesWritten = []
          ∧ (qrcode_generator u docs now form new_uuid folder).user.documents_created
              = u.documents_created + 1
          ∧ ∃ d, (qrcode_generator u docs now form new_uuid folder).documents = d :: docs
              ∧ d.file_path ∉ (qrcode_generator u docs now form new_uuid folder).filesWritten) := by
  refine ⟨?_, ?_, ?_⟩
  · intro data size format ec fg bg
    cases h : generate_qr_code_body data size format ec fg bg <;>
      simp [generate_qr_code, h]
  · intro data size n ec fg bg
    rfl
  · intro u docs now form new_uuid folder h
    rw [qrcode_generator_commits u docs now form new_uuid folder h]
    exact ⟨rfl, rfl, rfl, _, rfl, by simp⟩

/-- Witness for C10: the concrete wifi request commits a row pointing at a
file that was never written. -/
theorem claim_C10_witness :
    (qrcode_generator freeUser [] t0 wifiExampleForm "u9" "generated_files").result
        = .success ["u9"]
    ∧ (qrcode_generator freeUser [] t0 wifiExampleForm "u9" "generated_files").filesWritten = []
    ∧ (qrcode_generator freeUser [] t0 wifiExampleForm "u9" "generated_files").user.documents_created
        = freeUser.documents_created + 1
    ∧ ∃ d, (qrcode_generator freeUser [] t0 wifiExampleForm "u9" "generated_files").documents
          = d :: ([] : List Document)
        ∧ d.file_path ∉ (qrcode_generator freeUser [] t0 wifiExampleForm "u9" "generated_files").filesWritten :=
  claim_C10_shadowed_qr_flow.2.2 freeUser [] t0 wifiExampleForm "u9" "generated_files" (by decide)

/-- Premium-eligible users always pass the quota check. -/
theorem can_create_of_premium (u : User) (docs : List Document) (now : PyDateTime)
    (h : u.is_premium now = true) : u.can_create_document docs now = true := by
  simp [User.can_create_document, h]

/-- C5 counterexample: a premium user's bulk request whose recipient list is
empty.  The claim's rule (one artifact per non-blank name, i.e. none here)
demands zero artifacts and zero quota consumption, but the handler falls
through to the single-recipient branch and commits one artifact and one
counter increment. -/
theorem claim_C5_counterexample :
    (([] : List String).filter (fun name => pyStrip name ≠ "")).length = 0
    ∧ (certificate_creator premiumUser [] t0 true "Carol" "Course" "2026-10-01"
        "Inst" "Org" "Desc" none [] true sampleUuids "generated_files").documents.length = 1
    ∧ (certificate_creator premiumUser [] t0 true "Carol" "Course" "2026-10-01"
        "Inst" "Org" "Desc" none [] true sampleUuids "generated_files").user.documents_created
        = premiumUser.documents_created + 1
    ∧ (certificate_creator premiumUser [] t0 true "Carol" "Course" "2026-10-01"
        "Inst" "Org" "Desc" none [] true sampleUuids "generated_files").result
        = .success ["u0"] := by
  refine ⟨rfl, rfl, rfl, rfl⟩

/-- C5 amended: for every bulk request by a premium-eligible user with a
NON-EMPTY recipient list whose rendering succeeds, exactly one artifact and
one ledger row is produced per non-blank (non-whitespace-only) name, blank
entries are skipped, and the counter is incremented by the number of
artifacts produced; every produced row is a certificate owned by the user; a
free user's bulk request that passes the quota check is rejected with
PremiumRequired before any composing (a quota-exhausted free user is rejected
with QuotaExceeded, also before composing); ["Alice", "", " ", "Bob"]
produces exactly 2 artifacts consuming 2 quota units. -/
theorem claim_C5_bulk_certificates :
    (∀ (u : User) (docs : List Document) (now : PyDateTime)
        (rn cn cdate iname org desc : String) (tid : Option String)
        (names : List String) (uuids : Nat → String) (folder : String),
        u.is_premium now = true → names ≠ [] →
        (certificate_creator u docs now true rn cn cdate iname org desc tid names
            true uuids folder).documents.length
            = (names.filter (fun name => pyStrip name ≠ "")).length + docs.length
          ∧ (certificate_creator u docs now true rn cn cdate iname org desc tid names
              true uuids folder).user.documents_created
              = u.documents_created + (names.filter (fun name => pyStrip name ≠ "")).length
          ∧ ∀ d ∈ (certificate_creator u docs now true rn cn cdate iname org desc tid
              names true uuids folder).documents,
              d ∈ docs ∨ (d.user_id = u.id ∧ d.document_type = "certificate"))
    ∧ (∀ (u : User) (docs : List Document) (now : PyDateTime)
        (rn cn cdate iname org desc : String) (tid : Option String)
        (names : List String) (uuids : Nat → String) (folder : String),
        u.is_premium now = false → u.can_create_document docs now = true →
        certificate_creator u docs now true rn cn cdate iname org desc tid names
            true uuids folder = ⟨u, docs, [], .premiumRequired⟩)
    ∧ ((certificate_creator premiumUser [] t0 true "X" "Course" "2026-10-01" "Inst"
          "Org" "Desc" none ["Alice", "", " ", "Bob"] true sampleUuids
          "generated_files").documents.length = 2
        ∧ (certificate_creator premiumUser [] t0 true "X" "Course" "2026-10-01" "Inst"
            "Org" "Desc" none ["Alice", "", " ", "Bob"] true sampleUuids
            "generated_files").user.documents_created
            = premiumUser.documents_created + 2) := by
  refine ⟨?_, ?_, by decide, by decide⟩
  · intro u docs now rn cn cdate iname org desc tid names uuids folder hp hne
    have hq := can_create_of_premium u docs now hp
    have hempty : names.isEmpty = false := by
      cases names with
      | nil => exact absurd rfl hne
      | cons a l => rfl
    refine ⟨?_, ?_, ?_⟩
    · simp [certificate_creator, hq, hp, hempty]
    · simp [certificate_creator, hq, hp, hempty]
    · intro d hd
      simp only [certificate_creator, hq, hp, hempty, Bool.not_true, Bool.false_eq_true,
        if_false, Bool.true_and, Bool.not_false, if_true, eq_self_iff_true] at hd
      rw [List.mem_append] at hd
      cases hd with
      | inr h => exact Or.inl h
      | inl h =>
          refine Or.inr ?_
          rcases List.mem_map.mp h with ⟨p, _, hpd⟩
          subst hpd
          exact ⟨rfl, rfl⟩
  · intro u docs now rn cn cdate iname org desc tid names uuids folder hp hq
    simp [certificate_creator, hq, hp]

/-- Witness for C5: a free user with remaining quota requesting bulk mode is
rejected with PremiumRequired. -/
theorem claim_C5_witness :
    certificate_creator freeUser fourDocs t0 true "Carol" "Course" "2026-10-01"
        "Inst" "Org" "Desc" none ["Alice"] true sampleUuids "generated_files"
      = ⟨freeUser, fourDocs, [], .premiumRequired⟩ :=
  claim_C5_bulk_certificates.2.1 freeUser fourDocs t0 "Carol" "Course" "2026-10-01"
    "Inst" "Org" "Desc" none ["Alice"] sampleUuids "generated_files"
    (by decide) (by decide)

/-- C6: the download lookup is scoped to the claimed owner: it only ever
returns a row whose `user_id` is the requester's, and when every row carrying
the public identifier belongs to a different user, the lookup misses
(NotFound), even though the identifier is valid. -/
theorem claim_C6_ownership_scoped_lookup :
    (∀ (docs : List Document) (document_uuid : String) (user_id : Nat) (d : Document),
        download_document_lookup docs document_uuid user_id = some d →
          d.user_id = user_id ∧ d.uuid = document_uuid)
    ∧ (∀ (docs : List Document) (document_uuid : String) (owner other : Nat),
        owner ≠ other →
        (∀ d ∈ docs, d.uuid = document_uuid → d.user_id = owner) →
        download_document_lookup docs document_uuid other = none) := by
  constructor
  · intro docs document_uuid user_id d h
    have hp := List.find?_some h
    rw [Bool.and_eq_true, beq_iff_eq, beq_iff_eq] at hp
    exact ⟨hp.2, hp.1⟩
  · intro docs document_uuid owner other hne hown
    rw [download_document_lookup, List.find?_eq_none]
    intro d hd
    rw [Bool.and_eq_true, beq_iff_eq, beq_iff_eq]
    rintro ⟨h1, h2⟩
    exact hne ((hown d hd h1).symm.trans h2)

/-- Witness for C6: the valid identifier of user 1's row returns nothing for
user 2. -/
theorem claim_C6_witness :
    download_document_lookup [docA] "doc-uuid" 2 = none :=
  claim_C6_ownership_scoped_lookup.2 [docA] "doc-uuid" 1 2 (by decide) (by decide)

/-- C1 fails on the code: take a free user with exactly 4 documents created
this month and two concurrent generation requests.  Each request is the
code's own two-step sequence (read `can_create_document`, then insert and
increment — no transactional revalidation).  Under the interleaving
check₁ check₂ act₁ act₂ both checks read the count 4, both pass, and both
requests commit and respond success: the monthly quota is double-spent.
Under either serialized schedule exactly one succeeds and the other gets
QuotaExceeded, which is what the claim demands. -/
theorem claim_C1_double_spend :
    ((runSchedule t0 concDoc1 concDoc2 [true, false, true, false]
        { user := freeUser, documents := fourDocs, p1 := .start, p2 := .start }).p1
        = .finished true
      ∧ (runSchedule t0 concDoc1 concDoc2 [true, false, true, false]
          { user := freeUser, documents := fourDocs, p1 := .start, p2 := .start }).p2
          = .finished true
      ∧ (runSchedule t0 concDoc1 concDoc2 [true, false, true, false]
          { user := freeUser, documents := fourDocs, p1 := .start, p2 := .start }).user.documents_created
          = freeUser.documents_created + 2
      ∧ monthly_docs (runSchedule t0 concDoc1 concDoc2 [true, false, true, false]
          { user := freeUser, documents := fourDocs, p1 := .start, p2 := .start }).documents
          freeUser.id t0 = 6)
    ∧ ((runSchedule t0 concDoc1 concDoc2 [true, true, false, false]
        { user := freeUser, documents := fourDocs, p1 := .start, p2 := .start }).p1
        = .finished true
      ∧ (runSchedule t0 concDoc1 concDoc2 [true, true, false, false]
          { user := freeUser, documents := fourDocs, p1 := .start, p2 := .start }).p2
          = .finished false) := by
  refine ⟨⟨by decide, by decide, by decide, by decide⟩, by decide, by decide⟩

/-- Appending rows all owned by `user_id` grows the owned count by exactly
their number. -/
theorem ownedCount_append_owned (new old : List Document) (user_id : Nat)
    (h : ∀ d ∈ new, d.user_id = user_id) :
    ownedCount (new ++ old) user_id = new.length + ownedCount old user_id := by
  unfold ownedCount
  rw [List.filter_append, List.length_append]
  have : new.filter (fun d => d.user_id == user_id) = new :=
    List.filter_eq_self.mpr (fun d hd => beq_iff_eq.mpr (h d hd))
  rw [this]

/-- One `GenStep` preserves the ledger/counter agreement and never decreases
the counter (nor changes the user's identity). -/
theorem genStep_preserves (s s' : User × List Document) (hstep : GenStep s s')
    (hinv : s.1.documents_created = ownedCount s.2 s.1.id) :
    s'.1.documents_created = ownedCount s'.2 s'.1.id
      ∧ s.1.documents_created ≤ s'.1.documents_created := by
  cases hstep with
  | invoice u docs now inv ok new_uuid folder =>
      dsimp only at hinv
      cases hq : u.can_create_document docs now with
      | false => constructor <;> simp [invoice_generator, hq, hinv]
      | true =>
          cases ok with
          | false => constructor <;> simp [invoice_generator, hq, hinv]
          | true => constructor <;> simp [invoice_generator, hq, ownedCount, hinv]
  | qrcode u docs now data new_uuid folder =>
      dsimp only at hinv
      cases hq : u.can_create_document docs now with
      | false => constructor <;> simp [qrcode_generator, hq, hinv]
      | true =>
          constructor <;>
            simp [qrcode_generator_commits u docs now data new_uuid folder hq,
              ownedCount, qr_document, hinv]
  | resume u docs now rd ok new_uuid folder =>
      dsimp only at hinv
      cases hq : u.can_create_document docs now with
      | false => constructor <;> simp [resume_builder, hq, hinv]
      | true =>
          cases ok with
          | false => constructor <;> simp [resume_builder, hq, hinv]
          | true => constructor <;> simp [resume_builder, hq, ownedCount, hinv]
  | certificate u docs now is_bulk rn cn cd_ in_ og de tid names ok uuids folder =>
      dsimp only at hinv
      cases hq : u.can_create_document docs now with
      | false => constructor <;> simp [certificate_creator, hq, hinv]
      | true =>
          cases hg : is_bulk && !(u.is_premium now) with
          | true => constructor <;> simp [certificate_creator, hq, hg, hinv]
          | false =>
              cases ok with
              | false => constructor <;> simp [certificate_creator, hq, hg, hinv]
              | true =>
                  cases hb : is_bulk && !((if is_bulk then names else []).isEmpty) with
                  | true =>
                      refine ⟨?_, ?_⟩ <;>
                        simp [certificate_creator, hq, hg, hb, ownedCount,
                          List.filter_append, List.filter_map, Function.comp_def,
                          bulk_certificate_document, hinv]
                      exact Nat.add_comm _ _
                  | false =>
                      constructor <;>
                        simp [certificate_creator, hq, hg, hb, ownedCount, hinv]


/-- C7: from any settled state where the user's lifetime counter equals the
number of ledger rows the user owns, any sequence of committed generation
operations preserves that equality, and the counter never decreases. -/
theorem claim_C7_counter_invariant :
    ∀ s s' : User × List Document,
      Relation.ReflTransGen GenStep s s' →
      s.1.documents_created = ownedCount s.2 s.1.id →
      s'.1.documents_created = ownedCount s'.2 s'.1.id
        ∧ s.1.documents_created ≤ s'.1.documents_created := by
  intro s s' h hinv
  induction h with
  | refl => exact ⟨hinv, le_rfl⟩
  | tail _ hstep ih =>
      rcases ih with ⟨ih1, ih2⟩
      rcases genStep_preserves _ _ hstep ih1 with ⟨h1, h2⟩
      exact ⟨h1, ih2.trans h2⟩

/-- Witness for C7: a settled state whose counter (4) equals its owned row
count, kept by the empty sequence of operations. -/
theorem claim_C7_witness :
    freeUser.documents_created = ownedCount fourDocs freeUser.id
      ∧ freeUser.documents_created ≤ freeUser.documents_created :=
  claim_C7_counter_invariant (freeUser, fourDocs) (freeUser, fourDocs)
    Relation.ReflTransGen.refl (by decide)

end Backend
